import Mathlib

/-!
Shallow embedding of the list-builder core of the `wh40k-list-parser`
repository (`src/listmaker/features/list_builder/`): the army-list text
parser (`army_parser.py`), the points calculator (`calculator.py`) and the
rules validator (`validator.py`), together with the database rows they
query.  Python strings are modelled as Lean `String`s; the Python string
primitives used by the code (`str.strip`, `str.split('\n')`, `str.lower`,
substring membership, `str.zfill`, the regular-expression searches) are
embedded as executable functions over `List Char`.

All definitions are executable; theorems at the end check the behaviour
of the embedded code.
-/

/-! ## Python string primitives -/

/-- Whitespace characters stripped by Python's `str.strip()` and matched by
the regex class `\s` (ASCII fragment). -/
def pyIsSpace (c : Char) : Bool :=
  c == ' ' || c == '\t' || c == '\n' || c == '\r' ||
  c == (Char.ofNat 11) || c == (Char.ofNat 12)

/-- Leading- and trailing-whitespace removal on a character list. -/
def trimChars (l : List Char) : List Char :=
  ((l.dropWhile pyIsSpace).reverse.dropWhile pyIsSpace).reverse

/-- Python `str.strip()`. -/
def pyStrip (s : String) : String :=
  String.mk (trimChars s.data)

/-- Python `str.lower()` (ASCII fragment). -/
def pyLower (s : String) : String :=
  String.mk (s.data.map Char.toLower)

/-- Split a character list at newline characters; always returns at least
one (possibly empty) piece, like Python's `str.split('\n')`. -/
def splitNlChars : List Char → List (List Char)
  | [] => [[]]
  | c :: rest =>
    let r := splitNlChars rest
    if c == '\n' then [] :: r
    else
      match r with
      | h :: t => (c :: h) :: t
      | [] => [[c]]

/-- Python `str.split('\n')`. -/
def pySplitLines (s : String) : List String :=
  (splitNlChars s.data).map String.mk

/-- Containment of `needle` in `hay` as character lists (Python's `in` on
strings; the empty needle is contained in everything). -/
def infixOfB (needle : List Char) : List Char → Bool
  | [] => needle.isEmpty
  | c :: rest => needle.isPrefixOf (c :: rest) || infixOfB needle rest

/-- Python substring test `needle in hay`. -/
def pyContains (hay needle : String) : Bool :=
  infixOfB needle.data hay.data

/-- Numeric value of a digit run (Python `int` on a digit string). -/
def digitsVal (l : List Char) : Nat :=
  l.foldl (fun acc c => acc * 10 + (c.toNat - '0'.toNat)) 0

/-- Python `str.zfill(width)`: left-pad with zeros, keeping a leading sign
in front of the padding. -/
def pyZfill (s : String) (width : Nat) : String :=
  if width ≤ s.data.length then s
  else
    match s.data with
    | c :: rest =>
      if c == '+' || c == '-' then
        String.mk (c :: (List.replicate (width - s.data.length) '0' ++ rest))
      else
        String.mk (List.replicate (width - s.data.length) '0' ++ s.data)
    | [] => String.mk (List.replicate width '0')

/-! ## Regular-expression searches used by the code

Each of the regexes used by `army_parser.py` has the shape
"digit run plus fixed context", for which leftmost `re.search` semantics
reduce to a left-to-right scan: shortening the greedy `\d+` group can
never repair a failed match (the following character would still be a
digit), so a match attempt at a position succeeds exactly when the maximal
digit run starting there is followed by the fixed context. -/

/-- Match of `(\d+)x\s+` anchored at the start of the character list;
returns the numeric value of the digit group on success. -/
def countPatternAt (l : List Char) : Option Nat :=
  let run := l.takeWhile Char.isDigit
  let after := l.dropWhile Char.isDigit
  if run.isEmpty then none
  else
    match after with
    | 'x' :: w :: _ => if pyIsSpace w then some (digitsVal run) else none
    | _ => none

/-- Leftmost search for `(\d+)x\s+` (Python `re.search(r'(\d+)x\s+', s)`). -/
def searchCountPattern : List Char → Option Nat
  | [] => none
  | c :: rest =>
    match countPatternAt (c :: rest) with
    | some n => some n
    | none => searchCountPattern rest

/-- Match of `\((\d+) points\)` anchored at the start of the list. -/
def pointsPatternAt (l : List Char) : Option Nat :=
  match l with
  | '(' :: rest =>
    let run := rest.takeWhile Char.isDigit
    let after := rest.dropWhile Char.isDigit
    if !run.isEmpty && List.isPrefixOf " points)".data after then
      some (digitsVal run)
    else none
  | _ => none

/-- Leftmost search for `\((\d+) points\)`
(Python `re.search(r'\((\d+) points\)', s)`). -/
def searchPointsPattern : List Char → Option Nat
  | [] => none
  | c :: rest =>
    match pointsPatternAt (c :: rest) with
    | some n => some n
    | none => searchPointsPattern rest

/-- Leftmost search for `(\d+)` (used by the stat-field parsers). -/
def searchFirstInt : List Char → Option Nat
  | [] => none
  | c :: rest =>
    if c.isDigit then
      some (digitsVal ((c :: rest).takeWhile Char.isDigit))
    else searchFirstInt rest

/-- Python `re.sub(r'<[^>]+>', '', s)` on a character list: remove every
non-overlapping `<...>` segment with a non-empty body. -/
def stripHtmlChars (l : List Char) : List Char :=
  match l with
  | [] => []
  | c :: rest =>
    if c == '<' then
      let i := rest.findIdx (fun d => d == '>')
      if i < rest.length then
        if i == 0 then c :: stripHtmlChars rest
        else stripHtmlChars (rest.drop (i + 1))
      else c :: stripHtmlChars rest
    else c :: stripHtmlChars rest
termination_by l.length
decreasing_by
  all_goals simp [List.length_drop]
  all_goals omega

/-! ## Database rows (`database/models.py`)

Only the columns read by the list-builder core are modelled. -/

/-- Row of the `datasheets` table. -/
structure Datasheet where
  datasheet_id : String
  name : String
  faction_id : String
deriving Repr, DecidableEq

/-- Row of the `datasheet_keywords` table. -/
structure KeywordRow where
  datasheet_id : String
  keyword : String
deriving Repr, DecidableEq

/-- Row of the `model_costs` table. -/
structure ModelCostRow where
  datasheet_id : String
  line : Int
  description : String
  cost : Int
deriving Repr, DecidableEq

/-- Row of the `datasheet_model_stats` table (columns used by the parser).
Nullable columns are `Option`s. -/
structure ModelStatsRow where
  datasheet_id : String
  line : Int
  movement : Option String
  toughness : Option Int
  save : Option String
  wounds : Option Int
  leadership : Option String
  objective_control : Option Int
  base_size : Option String
deriving Repr, DecidableEq

/-- Row of the datasheet-wargear table (columns used by the parser). -/
structure WargearRow where
  datasheet_id : String
  line : Int
  line_in_wargear : Int
  name : String
  description : Option String
  type : Option String
  range : Option String
  attacks : Option String
  bs_ws : Option String
  strength : Option String
  ap : Option String
  damage : Option String
deriving Repr, DecidableEq

/-- Row of the `unit_entries` table (columns used by the validator). -/
structure UnitEntry where
  datasheet_id : String
  is_warlord : Bool
deriving Repr, DecidableEq

/-- Row of the `army_lists` table (columns used by the validator), with its
`units` relationship inlined. -/
structure ArmyList where
  list_id : String
  faction_id : String
  point_limit : Int
  total_points : Int
  units : List UnitEntry
deriving Repr, DecidableEq

/-- Snapshot of the database session: the tables queried by the core, each
as a list of rows in iteration order. -/
structure DB where
  army_lists : List ArmyList
  datasheets : List Datasheet
  keywords : List KeywordRow
  model_costs : List ModelCostRow
  model_stats : List ModelStatsRow
  wargear : List WargearRow
deriving Repr

/-- Query `datasheets` filtered by primary key, `.first()`. -/
def findDatasheet (db : DB) (dsid : String) : Option Datasheet :=
  db.datasheets.find? (fun d => d.datasheet_id == dsid)

/-- Query `datasheet_keywords` filtered by datasheet id, `.all()`. -/
def keywordRows (db : DB) (dsid : String) : List KeywordRow :=
  db.keywords.filter (fun k => k.datasheet_id == dsid)

/-- Stable insertion into a list sorted by `le`. -/
def insertLe {α : Type} (le : α → α → Bool) (x : α) : List α → List α
  | [] => [x]
  | y :: ys => if le y x then y :: insertLe le x ys else x :: y :: ys

/-- Insertion sort by `le` (models SQL `ORDER BY` on the filtered rows;
sort keys are unique per datasheet by the table constraints). -/
def sortLe {α : Type} (le : α → α → Bool) (l : List α) : List α :=
  l.foldr (insertLe le) []

/-! ## Validation issues (`models/validation.py`) -/

/-- A validation error or warning: code, human message, offending field. -/
structure ValidationIssue where
  code : String
  message : String
  field : String
deriving Repr, DecidableEq

/-- Result of a validation run; `is_valid` is true iff `errors` is empty. -/
structure ValidationResult where
  is_valid : Bool
  errors : List ValidationIssue
  warnings : List ValidationIssue
deriving Repr, DecidableEq

/-! ## `ListValidator` (`validator.py`) -/

/-- `ListValidator._check_point_limit`. -/
def check_point_limit (al : ArmyList) : List ValidationIssue :=
  if al.point_limit < al.total_points then
    [⟨"EXCEEDS_POINT_LIMIT",
      "Army list exceeds " ++ toString al.point_limit ++ " point limit (current: " ++
        toString al.total_points ++ ")",
      "total_points"⟩]
  else []

/-- Body of the unit loop of `_check_warlord`: the unit's datasheet is
looked up and, when found, its keyword rows are scanned for `CHARACTER`. -/
def unit_has_character (db : DB) (u : UnitEntry) : Bool :=
  match findDatasheet db u.datasheet_id with
  | some ds => (keywordRows db ds.datasheet_id).any (fun k => k.keyword == "CHARACTER")
  | none => false

/-- `ListValidator._check_warlord`. -/
def check_warlord (db : DB) (al : ArmyList) : List ValidationIssue :=
  let has_warlord := al.units.any (fun u => u.is_warlord)
  if !has_warlord && !al.units.isEmpty then
    let has_character := al.units.any (unit_has_character db)
    if has_character then
      [⟨"NO_WARLORD", "Army must have a unit designated as Warlord", "units"⟩]
    else []
  else []

/-- First occurrences of the elements of a list, in order (iteration order
of the keys of Python's `collections.Counter`). -/
def firstOccAux (seen : List String) : List String → List String
  | [] => []
  | x :: xs =>
    if seen.contains x then firstOccAux seen xs
    else x :: firstOccAux (x :: seen) xs

/-- Distinct elements in first-occurrence order. -/
def firstOccurrences (l : List String) : List String :=
  firstOccAux [] l

/-- Battleline test used by the validator: any keyword row of the
datasheet id equal to `BATTLELINE`. -/
def isBattlelineB (db : DB) (dsid : String) : Bool :=
  (keywordRows db dsid).any (fun k => k.keyword == "BATTLELINE")

/-- Body of the per-datasheet loop of
`ListValidator._check_datasheet_limits`, given the multiplicity `count` of
datasheet id `d` in the list. -/
def limitErrorsFor (db : DB) (count : Nat) (d : String) : List ValidationIssue :=
  match findDatasheet db d with
  | none => []
  | some ds =>
    let is_battleline := isBattlelineB db d
    let max_allowed : Nat := if is_battleline then 6 else 3
    if max_allowed < count then
      [⟨"EXCEEDS_DATASHEET_LIMIT",
        "Too many " ++ ds.name ++ " units: " ++ toString count ++ "/" ++
          toString max_allowed ++ " (" ++
          (if is_battleline then "Battleline" else "Standard") ++ " limit)",
        "units"⟩]
    else []

/-- `ListValidator._check_datasheet_limits` (Rule of Three). -/
def check_datasheet_limits (db : DB) (al : ArmyList) : List ValidationIssue :=
  let ids := al.units.map (fun u => u.datasheet_id)
  (firstOccurrences ids).flatMap (fun d => limitErrorsFor db (ids.count d) d)

/-- `ListValidator._check_minimum_units` (warnings only). -/
def check_minimum_units (db : DB) (al : ArmyList) : List ValidationIssue :=
  if al.units.isEmpty then
    [⟨"NO_UNITS", "Army list has no units", "units"⟩]
  else
    let has_battleline := al.units.any (fun u => isBattlelineB db u.datasheet_id)
    if !has_battleline then
      [⟨"NO_BATTLELINE", "Army has no Battleline units (recommended for balanced lists)",
        "units"⟩]
    else []

/-- Fixed Imperial-aligned faction identifiers (`_are_factions_allied`). -/
def imperial_factions : List String := ["SM", "AM", "AS", "GK", "AC", "AoI", "QI"]

/-- Fixed Chaos-aligned faction identifiers (`_are_factions_allied`). -/
def chaos_factions : List String := ["CSM", "DG", "TS", "WE", "EC", "CD", "QT"]

/-- `ListValidator._are_factions_allied`. -/
def are_factions_allied (faction1 faction2 : String) : Bool :=
  (imperial_factions.contains faction1 && imperial_factions.contains faction2) ||
  (chaos_factions.contains faction1 && chaos_factions.contains faction2)

/-- `ListValidator._check_faction_consistency`. -/
def check_faction_consistency (db : DB) (al : ArmyList) : List ValidationIssue :=
  al.units.flatMap (fun u =>
    match findDatasheet db u.datasheet_id with
    | none => []
    | some ds =>
      if ds.faction_id != al.faction_id then
        if !are_factions_allied al.faction_id ds.faction_id then
          [⟨"FACTION_MISMATCH",
            "Unit " ++ ds.name ++ " (faction: " ++ ds.faction_id ++
              ") cannot be included in " ++ al.faction_id ++ " army",
            "units"⟩]
        else []
      else [])

/-- `ListValidator.validate_list`. -/
def validate_list (db : DB) (list_id : String) : ValidationResult :=
  match db.army_lists.find? (fun a => a.list_id == list_id) with
  | none =>
    ⟨false,
     [⟨"LIST_NOT_FOUND", "Army list " ++ list_id ++ " not found", "list_id"⟩],
     []⟩
  | some al =>
    let errors :=
      check_point_limit al ++ check_warlord db al ++
      check_datasheet_limits db al ++ check_faction_consistency db al
    let warnings := check_minimum_units db al
    ⟨errors.isEmpty, errors, warnings⟩

/-- `ListValidator.validate_unit_addition`. -/
def validate_unit_addition (db : DB) (list_id datasheet_id : String)
    (quantity : Int := 1) : ValidationResult :=
  match db.army_lists.find? (fun a => a.list_id == list_id) with
  | none =>
    ⟨false,
     [⟨"LIST_NOT_FOUND", "Army list " ++ list_id ++ " not found", "list_id"⟩],
     []⟩
  | some al =>
    match findDatasheet db datasheet_id with
    | none =>
      ⟨false,
       [⟨"DATASHEET_NOT_FOUND", "Datasheet " ++ datasheet_id ++ " not found",
         "datasheet_id"⟩],
       []⟩
    | some ds =>
      let faction_errors :=
        if ds.faction_id != al.faction_id then
          if !are_factions_allied al.faction_id ds.faction_id then
            [⟨"FACTION_MISMATCH",
              "Unit " ++ ds.name ++ " cannot be added to " ++ al.faction_id ++ " army",
              "datasheet_id"⟩]
          else []
        else []
      let current_count : Int :=
        ((al.units.filter (fun u => u.datasheet_id == datasheet_id)).length : Nat)
      let new_count := current_count + quantity
      let is_battleline := isBattlelineB db datasheet_id
      let max_allowed : Int := if is_battleline then 6 else 3
      let limit_errors :=
        if max_allowed < new_count then
          [⟨"WOULD_EXCEED_DATASHEET_LIMIT",
            "Adding " ++ toString quantity ++ " " ++ ds.name ++
              " would exceed limit (" ++ toString new_count ++ "/" ++
              toString max_allowed ++ ")",
            "quantity"⟩]
        else []
      let errors := faction_errors ++ limit_errors
      ⟨errors.isEmpty, errors, []⟩

/-- Number of errors with a given code in a validation result. -/
def countIssues (l : List ValidationIssue) (c : String) : Nat :=
  (l.filter (fun e => e.code == c)).length

/-- Number of errors with a given code in a validation result. -/
def countCode (r : ValidationResult) (c : String) : Nat :=
  countIssues r.errors c

/-! ## `ArmyListParser` (`army_parser.py`) -/

/-- Header info produced by `ArmyListParser._extract_faction_info`. -/
structure FactionInfo where
  name : String
  points : Int
  detachment : String
deriving Repr, DecidableEq

/-- Detachment markers scanned for by `_extract_faction_info`. -/
def detachment_markers : List String := ["strike force", "patrol", "battalion"]

/-- Body of the scanning loop of `_extract_faction_info`: one line updates
the accumulated (points, detachment) pair; each match overwrites the
previous value. -/
def faction_info_step (pd : Int × String) (line : String) : Int × String :=
  let p : Int :=
    match searchPointsPattern line.data with
    | some n => (n : Int)
    | none => pd.1
  let d :=
    if detachment_markers.any (fun k => pyContains (pyLower line) k) then pyStrip line
    else pd.2
  (p, d)

/-- `ArmyListParser._extract_faction_info`: faction name from line 1,
then one pass over the first 5 lines accumulating the points and
detachment values. -/
def extract_faction_info (lines : List String) : FactionInfo :=
  let faction :=
    match lines with
    | [] => "Unknown"
    | l :: _ => pyStrip l
  let pd := (lines.take 5).foldl faction_info_step ((0 : Int), "")
  { name := faction, points := pd.1, detachment := pd.2 }

/-- The line list computed at the top of `ArmyListParser.parse_army_list`:
`army_text.strip().split('\n')`. -/
def parse_army_list_lines (army_text : String) : List String :=
  pySplitLines (pyStrip army_text)

/-- A parsed unit block (`current_unit` dict built by `_parse_units`);
`section_label` carries the dict's section entry. -/
structure ParsedUnit where
  name : String
  points : Int
  section_label : Option String
  wargear : List String
  models : List String
  is_warlord : Bool
  enhancements : List String
deriving Repr, DecidableEq

/-- `ArmyListParser._parse_model_count`. -/
def parse_model_count (unit_models : List String) : Int :=
  let total_count : Int := unit_models.foldl
    (fun acc m =>
      match searchCountPattern m.data with
      | some n => acc + ((n : Int) - 1)
      | none => acc)
    1
  let total_count :=
    if total_count == 1 && !unit_models.isEmpty then (unit_models.length : Int)
    else total_count
  max 1 total_count

/-- Python `value or default` for an optional integer column (`None` and
`0` are both falsy). -/
def orIntDefault (o : Option Int) (d : Int) : Int :=
  match o with
  | some v => if v == 0 then d else v
  | none => d

/-- `ArmyListParser._parse_base_size`. -/
def parse_base_size (base_size_str : Option String) : Int :=
  match base_size_str with
  | none => 32
  | some s =>
    if s.data.isEmpty then 32
    else
      match searchFirstInt s.data with
      | some n => (n : Int)
      | none => 32

/-- `ArmyListParser._parse_movement`. -/
def parse_movement (movement_str : Option String) : Int :=
  match movement_str with
  | none => 6
  | some s =>
    if s.data.isEmpty then 6
    else
      match searchFirstInt s.data with
      | some n => (n : Int)
      | none => 6

/-- `ArmyListParser._parse_save`. -/
def parse_save (save_str : Option String) : Int :=
  match save_str with
  | none => 3
  | some s =>
    if s.data.isEmpty then 3
    else
      match searchFirstInt s.data with
      | some n => (n : Int)
      | none => 3

/-- `ArmyListParser._parse_leadership`. -/
def parse_leadership (leadership_str : Option String) : Int :=
  match leadership_str with
  | none => 6
  | some s =>
    if s.data.isEmpty then 6
    else
      match searchFirstInt s.data with
      | some n => (n : Int)
      | none => 6

/-- `ArmyListParser._find_datasheet`: three matching tiers — exact name,
datasheet name containing the unit name, and a scan for a datasheet whose
lower-cased name is contained in the lower-cased unit name. -/
def find_datasheet (db : DB) (unit_name : String) : Option Datasheet :=
  match db.datasheets.find? (fun d => d.name == unit_name) with
  | some ds => some ds
  | none =>
    match db.datasheets.find? (fun d => pyContains d.name unit_name) with
    | some ds => some ds
    | none =>
      db.datasheets.find? (fun d => pyContains (pyLower unit_name) (pyLower d.name))

/-- `ArmyListParser._get_model_stats` (`ORDER BY line`). -/
def get_model_stats (db : DB) (dsid : String) : List ModelStatsRow :=
  sortLe (fun a b => decide (a.line ≤ b.line))
    (db.model_stats.filter (fun s => s.datasheet_id == dsid))

/-- `ArmyListParser._get_wargear` (`ORDER BY line, line_in_wargear`). -/
def get_wargear (db : DB) (dsid : String) : List WargearRow :=
  sortLe
    (fun a b =>
      decide (a.line < b.line) ||
      (a.line == b.line && decide (a.line_in_wargear ≤ b.line_in_wargear)))
    (db.wargear.filter (fun w => w.datasheet_id == dsid))

/-- A formatted weapon record: the Python dict as an ordered key/value
list (values are optional strings, since nullable columns flow through). -/
abbrev WeaponRecord : Type := List (String × Option String)

/-- `ArmyListParser._format_weapon`. -/
def format_weapon (w : WargearRow) : WeaponRecord :=
  let description := String.mk (stripHtmlChars (w.description.getD "").data)
  let weapon_data : List (String × Option String) := [("name", some w.name), ("type", w.type)]
  let weapon_data :=
    if w.type == some "Ranged" then
      weapon_data ++
        [("range", w.range), ("attacks", w.attacks), ("ballistic_skill", w.bs_ws),
         ("strength", w.strength), ("ap", w.ap), ("damage", w.damage)]
    else if w.type == some "Melee" then
      weapon_data ++
        [("range", some "Melee"), ("attacks", w.attacks), ("weapon_skill", w.bs_ws),
         ("strength", w.strength), ("ap", w.ap), ("damage", w.damage)]
    else weapon_data
  if !description.data.isEmpty then weapon_data ++ [("special_rules", some description)]
  else weapon_data

/-- One model instance of the Godot output structure. -/
structure GodotModelInst where
  id : String
  wounds : Int
  current_wounds : Int
  base_mm : Int
  position : Option Unit
  alive : Bool
  status_effects : List String
deriving Repr, DecidableEq

/-- The `meta` sub-dict of a Godot unit.  The fallback structure carries
no `weapons` key, so the field is optional; `stats` is an ordered
key/value list because the fallback dict has three keys and the resolved
dict six (or zero when the datasheet has no stat lines). -/
structure UnitMeta where
  name : String
  keywords : List String
  stats : List (String × Int)
  points : Int
  is_warlord : Bool
  enhancements : List String
  wargear : List String
  weapons : Option (List WeaponRecord)
deriving Repr, DecidableEq

/-- A Godot-format unit, the output of `_convert_to_godot_format`. -/
structure GodotUnit where
  id : String
  squad_id : String
  owner : Int
  status : String
  meta : UnitMeta
  models : List GodotModelInst
deriving Repr, DecidableEq

/-- `ArmyListParser._create_fallback_unit`. -/
def create_fallback_unit (unit_id : String) (unit_data : ParsedUnit) : GodotUnit :=
  { id := unit_id
    squad_id := unit_id
    owner := 1
    status := "UNDEPLOYED"
    meta :=
      { name := unit_data.name
        keywords := ["UNKNOWN"]
        stats := [("move", 6), ("toughness", 4), ("save", 3)]
        points := unit_data.points
        is_warlord := unit_data.is_warlord
        enhancements := unit_data.enhancements
        wargear := unit_data.wargear
        weapons := none }
    models :=
      [{ id := "m1", wounds := 1, current_wounds := 1, base_mm := 32,
         position := none, alive := true, status_effects := [] }] }

/-- `ArmyListParser._convert_to_godot_format`. -/
def convert_to_godot_format (db : DB) (unit_id : String) (unit_data : ParsedUnit) :
    GodotUnit :=
  match find_datasheet db unit_data.name with
  | none => create_fallback_unit unit_id unit_data
  | some datasheet =>
    let keywords := (keywordRows db datasheet.datasheet_id).map (fun k => k.keyword)
    let model_stats := get_model_stats db datasheet.datasheet_id
    let padded_datasheet_id := pyZfill datasheet.datasheet_id 9
    let wargear := get_wargear db padded_datasheet_id
    let weapons := wargear.map format_weapon
    let model_count := parse_model_count unit_data.models
    let base_wounds : Int :=
      match model_stats with
      | s :: _ => orIntDefault s.wounds 1
      | [] => 1
    let base_size_mm :=
      parse_base_size
        (match model_stats with
         | s :: _ => s.base_size
         | [] => none)
    let models := (List.range model_count.toNat).map (fun i =>
      ({ id := "m" ++ toString (i + 1), wounds := base_wounds,
         current_wounds := base_wounds, base_mm := base_size_mm,
         position := none, alive := true, status_effects := [] } : GodotModelInst))
    let unit_stats : List (String × Int) :=
      match model_stats with
      | stats :: _ =>
        [("move", parse_movement stats.movement),
         ("toughness", orIntDefault stats.toughness 3),
         ("save", parse_save stats.save),
         ("wounds", orIntDefault stats.wounds 1),
         ("leadership", parse_leadership stats.leadership),
         ("objective_control", orIntDefault stats.objective_control 1)]
      | [] => []
    { id := unit_id
      squad_id := unit_id
      owner := 1
      status := "UNDEPLOYED"
      meta :=
        { name := unit_data.name
          keywords := keywords
          stats := unit_stats
          points := unit_data.points
          is_warlord := unit_data.is_warlord
          enhancements := unit_data.enhancements
          wargear := unit_data.wargear
          weapons := some weapons }
      models := models }

/-! ## `PointsCalculator` (`calculator.py`) -/

/-- `PointsCalculator.get_unit_cost_options` (`ORDER BY line`). -/
def get_unit_cost_options (db : DB) (dsid : String) : List ModelCostRow :=
  sortLe (fun a b => decide (a.line ≤ b.line))
    (db.model_costs.filter (fun c => c.datasheet_id == dsid))

/-- The search loop of `calculate_unit_cost`: first option whose
lower-cased description contains the needle, else the sentinel 0. -/
def matchLoopCost (needle : String) : List ModelCostRow → Int
  | [] => 0
  | o :: rest =>
    if pyContains (pyLower o.description) needle then o.cost
    else matchLoopCost needle rest

/-- `PointsCalculator.calculate_unit_cost` (wargear and enhancement
selections contribute zero cost in the source). -/
def calculate_unit_cost (db : DB) (dsid : String) (model_count : Int := 1) : Int :=
  match get_unit_cost_options db dsid with
  | [] => 0
  | o :: rest =>
    let base_cost := matchLoopCost (toString model_count ++ " model") (o :: rest)
    let base_cost := if base_cost == 0 then o.cost else base_cost
    let wargear_cost : Int := 0
    let enhancement_cost : Int := 0
    base_cost + wargear_cost + enhancement_cost

/-! ## Claim-side reference definitions

These two definitions follow the wording of the specification claims (not
the source); they exist only to be compared against the embedded source
functions. -/

/-- The model count as claimed by the spec: 1 plus `(n - 1)` for each
model line matching a leading `"<n>x "` pattern; the line-count fallback
only when no line parses to a number; floored at 1. -/
def modelCountPerClaim (unit_models : List String) : Int :=
  let base : Int := 1 + (unit_models.map (fun m =>
    match countPatternAt m.data with
    | some n => (n : Int) - 1
    | none => 0)).sum
  let t :=
    if unit_models.all (fun m => (countPatternAt m.data).isNone) && !unit_models.isEmpty
    then (unit_models.length : Int)
    else base
  max 1 t

/-- The unit base cost as claimed by the spec: cost of the first
cost-table entry, in ascending line order, whose description textually
contains `"<modelCount> model"`; else the cost of the entry with the
lowest line number; 0 when there are no entries. -/
def unitCostPerClaim (db : DB) (dsid : String) (model_count : Int) : Int :=
  match get_unit_cost_options db dsid with
  | [] => 0
  | o :: rest =>
    match (o :: rest).find?
        (fun e => pyContains e.description (toString model_count ++ " model")) with
    | some e => e.cost
    | none => o.cost

/-! ## Helper lemmas -/

/-- Counting distributes over list append. -/
theorem countIssues_append (a b : List ValidationIssue) (c : String) :
    countIssues (a ++ b) c = countIssues a c + countIssues b c := by
  simp [countIssues, List.filter_append]

/-- A list all of whose issues carry a different code contributes nothing
to the count. -/
theorem countIssues_eq_zero (l : List ValidationIssue) (c : String)
    (h : ∀ e ∈ l, ¬ e.code = c) : countIssues l c = 0 := by
  simp only [countIssues, List.length_eq_zero]
  refine List.filter_eq_nil_iff.mpr ?_
  intro e he
  simp [h e he]

/-- Every issue produced by the point-limit check carries code
`EXCEEDS_POINT_LIMIT`. -/
theorem check_point_limit_codes (al : ArmyList) :
    ∀ e ∈ check_point_limit al, e.code = "EXCEEDS_POINT_LIMIT" := by
  unfold check_point_limit
  split <;> simp

/-- Every issue produced by the warlord check carries code `NO_WARLORD`. -/
theorem check_warlord_codes (db : DB) (al : ArmyList) :
    ∀ e ∈ check_warlord db al, e.code = "NO_WARLORD" := by
  intro e he
  simp only [check_warlord] at he
  split at he
  · split at he
    · rw [List.mem_singleton] at he; rw [he]
    · simp at he
  · simp at he

/-- Every issue produced by the per-datasheet limit loop carries code
`EXCEEDS_DATASHEET_LIMIT`. -/
theorem limitErrorsFor_codes (db : DB) (n : Nat) (d : String) :
    ∀ e ∈ limitErrorsFor db n d, e.code = "EXCEEDS_DATASHEET_LIMIT" := by
  intro e he
  simp only [limitErrorsFor] at he
  split at he
  · simp at he
  · split at he <;> split at he <;> simp_all

/-- Every issue produced by the repetition-limit check carries code
`EXCEEDS_DATASHEET_LIMIT`. -/
theorem check_datasheet_limits_codes (db : DB) (al : ArmyList) :
    ∀ e ∈ check_datasheet_limits db al, e.code = "EXCEEDS_DATASHEET_LIMIT" := by
  unfold check_datasheet_limits
  intro e he
  simp only [List.mem_flatMap] at he
  obtain ⟨d, _, hd⟩ := he
  exact limitErrorsFor_codes _ _ _ e hd

/-- Every issue produced by the faction-consistency check carries code
`FACTION_MISMATCH`. -/
theorem check_faction_consistency_codes (db : DB) (al : ArmyList) :
    ∀ e ∈ check_faction_consistency db al, e.code = "FACTION_MISMATCH" := by
  intro e he
  simp only [check_faction_consistency, List.mem_flatMap] at he
  obtain ⟨u, -, hu⟩ := he
  split at hu
  · simp at hu
  · split at hu
    · split at hu
      · rw [List.mem_singleton] at hu; rw [hu]
      · simp at hu
    · simp at hu

/-- When the list lookup succeeds, the errors of `validate_list` are the
concatenation of the four error-producing checks, in order. -/
theorem validate_list_errors (db : DB) (list_id : String) (al : ArmyList)
    (h : db.army_lists.find? (fun a => a.list_id == list_id) = some al) :
    (validate_list db list_id).errors =
      check_point_limit al ++ check_warlord db al ++
      check_datasheet_limits db al ++ check_faction_consistency db al := by
  unfold validate_list
  rw [h]

/-! ## C10 — unit-addition validation never warns -/

/-- C10: for every list identifier, datasheet identifier and quantity, the
result of `validate_unit_addition` has an empty warnings list. -/
theorem validate_unit_addition_no_warnings (db : DB) (list_id datasheet_id : String)
    (quantity : Int) :
    (validate_unit_addition db list_id datasheet_id quantity).warnings = [] := by
  unfold validate_unit_addition
  cases db.army_lists.find? (fun a => a.list_id == list_id) with
  | none => rfl
  | some al =>
    cases findDatasheet db datasheet_id with
    | none => rfl
    | some ds => rfl

/-! ## C4 — fallback unit shape -/

/-- C4: when none of the three matching tiers resolves the unit name, the
produced unit has keywords exactly `["UNKNOWN"]`, stats exactly
`{move: 6, toughness: 4, save: 3}`, a single model with 1 wound on a 32 mm
base, and the parsed wargear, enhancements, points and warlord flag
preserved verbatim. -/
theorem fallback_unit_shape (db : DB) (unit_id : String) (u : ParsedUnit)
    (h : find_datasheet db u.name = none) :
    (convert_to_godot_format db unit_id u).meta.keywords = ["UNKNOWN"] ∧
    (convert_to_godot_format db unit_id u).meta.stats =
      [("move", 6), ("toughness", 4), ("save", 3)] ∧
    (convert_to_godot_format db unit_id u).models =
      [{ id := "m1", wounds := 1, current_wounds := 1, base_mm := 32,
         position := none, alive := true, status_effects := [] }] ∧
    (convert_to_godot_format db unit_id u).meta.wargear = u.wargear ∧
    (convert_to_godot_format db unit_id u).meta.enhancements = u.enhancements ∧
    (convert_to_godot_format db unit_id u).meta.points = u.points ∧
    (convert_to_godot_format db unit_id u).meta.is_warlord = u.is_warlord := by
  unfold convert_to_godot_format
  rw [h]
  exact ⟨rfl, rfl, rfl, rfl, rfl, rfl, rfl⟩

/-- Catalog for the C4 witness: one datasheet that matches none of the
three tiers for the witness unit name. -/
def dbC4w : DB :=
  { army_lists := []
    datasheets := [⟨"000000001", "Intercessor Squad", "SM"⟩]
    keywords := [⟨"000000001", "INFANTRY"⟩]
    model_costs := []
    model_stats := []
    wargear := [] }

/-- Parsed unit block for the C4 witness. -/
def puC4 : ParsedUnit :=
  { name := "Blade Champion"
    points := 135
    section_label := some "CHARACTERS"
    wargear := ["Vaultswords"]
    models := ["1x Blade Champion"]
    is_warlord := true
    enhancements := ["Veiled Blade"] }

/-- Witness for C4 at a concrete unresolvable unit. -/
theorem fallback_unit_shape_witness :
    (convert_to_godot_format dbC4w "U_BLADE_CHAMPION_A" puC4).meta.keywords = ["UNKNOWN"] ∧
    (convert_to_godot_format dbC4w "U_BLADE_CHAMPION_A" puC4).meta.stats =
      [("move", 6), ("toughness", 4), ("save", 3)] ∧
    (convert_to_godot_format dbC4w "U_BLADE_CHAMPION_A" puC4).models =
      [{ id := "m1", wounds := 1, current_wounds := 1, base_mm := 32,
         position := none, alive := true, status_effects := [] }] ∧
    (convert_to_godot_format dbC4w "U_BLADE_CHAMPION_A" puC4).meta.wargear = puC4.wargear ∧
    (convert_to_godot_format dbC4w "U_BLADE_CHAMPION_A" puC4).meta.enhancements =
      puC4.enhancements ∧
    (convert_to_godot_format dbC4w "U_BLADE_CHAMPION_A" puC4).meta.points = puC4.points ∧
    (convert_to_godot_format dbC4w "U_BLADE_CHAMPION_A" puC4).meta.is_warlord =
      puC4.is_warlord :=
  fallback_unit_shape dbC4w "U_BLADE_CHAMPION_A" puC4 (by decide)

/-! ## C1 — point-limit error -/

/-- The point-limit check emits one error exactly when the total exceeds
the limit. -/
theorem countIssues_check_point_limit (al : ArmyList) :
    countIssues (check_point_limit al) "EXCEEDS_POINT_LIMIT" =
      if al.point_limit < al.total_points then 1 else 0 := by
  unfold check_point_limit
  split <;> simp [countIssues]

/-- Composite count of a code over the errors of a successful
`validate_list` run, one summand per check. -/
theorem countCode_validate_list (db : DB) (list_id : String) (al : ArmyList) (c : String)
    (h : db.army_lists.find? (fun a => a.list_id == list_id) = some al) :
    countCode (validate_list db list_id) c =
      countIssues (check_point_limit al) c + countIssues (check_warlord db al) c +
      countIssues (check_datasheet_limits db al) c +
      countIssues (check_faction_consistency db al) c := by
  unfold countCode
  rw [validate_list_errors db list_id al h, countIssues_append, countIssues_append,
    countIssues_append]

/-- C1: for every army list found by `validate_list`, an
`EXCEEDS_POINT_LIMIT` error is emitted exactly once when the list's total
points strictly exceed its point limit, and never otherwise; in
particular totals equal to the limit give no such error and totals equal
to the limit plus one give exactly one. -/
theorem point_limit_error_iff (db : DB) (list_id : String) (al : ArmyList)
    (h : db.army_lists.find? (fun a => a.list_id == list_id) = some al) :
    countCode (validate_list db list_id) "EXCEEDS_POINT_LIMIT" =
      if al.point_limit < al.total_points then 1 else 0 := by
  have hw : countIssues (check_warlord db al) "EXCEEDS_POINT_LIMIT" = 0 :=
    countIssues_eq_zero _ _ (fun e he => by rw [check_warlord_codes db al e he]; decide)
  have hd : countIssues (check_datasheet_limits db al) "EXCEEDS_POINT_LIMIT" = 0 :=
    countIssues_eq_zero _ _
      (fun e he => by rw [check_datasheet_limits_codes db al e he]; decide)
  have hf : countIssues (check_faction_consistency db al) "EXCEEDS_POINT_LIMIT" = 0 :=
    countIssues_eq_zero _ _
      (fun e he => by rw [check_faction_consistency_codes db al e he]; decide)
  rw [countCode_validate_list db list_id al _ h, hw, hd, hf,
    countIssues_check_point_limit]
  simp

/-- Concrete database for the C1 witness: one list at its limit plus one
point, one list exactly at its limit. -/
def dbC1w : DB :=
  { army_lists :=
      [⟨"L_over", "SM", 2000, 2001, []⟩,
       ⟨"L_exact", "SM", 2000, 2000, []⟩]
    datasheets := []
    keywords := []
    model_costs := []
    model_stats := []
    wargear := [] }

/-- Witness for C1 at the two point-limit boundary inputs. -/
theorem point_limit_error_iff_witness :
    countCode (validate_list dbC1w "L_over") "EXCEEDS_POINT_LIMIT" = 1 ∧
    countCode (validate_list dbC1w "L_exact") "EXCEEDS_POINT_LIMIT" = 0 := by
  constructor
  · rw [point_limit_error_iff dbC1w "L_over" ⟨"L_over", "SM", 2000, 2001, []⟩ (by decide)]
    decide
  · rw [point_limit_error_iff dbC1w "L_exact" ⟨"L_exact", "SM", 2000, 2000, []⟩ (by decide)]
    decide

/-! ## C2 — datasheet repetition limit -/

/-- Counting a fixed code over a `flatMap` whose pieces each contribute 0
or 1 reduces to the length of a filter. -/
theorem countIssues_flatMap {α : Type} (l : List α) (f : α → List ValidationIssue)
    (g : α → Bool) (c : String)
    (h : ∀ d ∈ l, countIssues (f d) c = if g d then 1 else 0) :
    countIssues (l.flatMap f) c = (l.filter g).length := by
  induction l with
  | nil => simp [countIssues]
  | cons x xs ih =>
    rw [List.flatMap_cons, countIssues_append,
      h x (List.mem_cons_self x xs),
      ih (fun d hd => h d (List.mem_cons_of_mem x hd)), List.filter_cons]
    split <;> simp [Nat.add_comm]

/-- The per-datasheet limit loop emits exactly one error when the
datasheet resolves and the count exceeds its battleline-aware maximum. -/
theorem countIssues_limitErrorsFor (db : DB) (n : Nat) (d : String) :
    countIssues (limitErrorsFor db n d) "EXCEEDS_DATASHEET_LIMIT" =
      if (findDatasheet db d).isSome &&
          decide ((if isBattlelineB db d then 6 else 3) < n) then 1 else 0 := by
  unfold limitErrorsFor
  cases hfd : findDatasheet db d with
  | none => simp [countIssues]
  | some ds =>
    by_cases hc : (if isBattlelineB db d then 6 else 3) < n
    · simp [hc, countIssues]
    · simp [hc, countIssues]

/-- C2 (amended): among the units of a found army list grouped by
datasheet identifier, exactly one `EXCEEDS_DATASHEET_LIMIT` error is
produced for each group whose identifier is present in the catalog and
whose multiplicity exceeds 6 when the datasheet carries the `BATTLELINE`
keyword and 3 otherwise; groups whose identifier is absent from the
catalog are skipped and never produce an error. -/
theorem datasheet_limit_errors (db : DB) (list_id : String) (al : ArmyList)
    (h : db.army_lists.find? (fun a => a.list_id == list_id) = some al) :
    countCode (validate_list db list_id) "EXCEEDS_DATASHEET_LIMIT" =
      ((firstOccurrences (al.units.map (fun u => u.datasheet_id))).filter (fun d =>
        (findDatasheet db d).isSome &&
        decide ((if isBattlelineB db d then 6 else 3) <
          (al.units.map (fun u => u.datasheet_id)).count d))).length := by
  have hp : countIssues (check_point_limit al) "EXCEEDS_DATASHEET_LIMIT" = 0 :=
    countIssues_eq_zero _ _ (fun e he => by rw [check_point_limit_codes al e he]; decide)
  have hw : countIssues (check_warlord db al) "EXCEEDS_DATASHEET_LIMIT" = 0 :=
    countIssues_eq_zero _ _ (fun e he => by rw [check_warlord_codes db al e he]; decide)
  have hf : countIssues (check_faction_consistency db al) "EXCEEDS_DATASHEET_LIMIT" = 0 :=
    countIssues_eq_zero _ _
      (fun e he => by rw [check_faction_consistency_codes db al e he]; decide)
  rw [countCode_validate_list db list_id al _ h, hp, hw, hf]
  simp only [Nat.zero_add, Nat.add_zero]
  unfold check_datasheet_limits
  exact countIssues_flatMap _ _ _ _
    (fun d _ => countIssues_limitErrorsFor db
      ((al.units.map (fun u => u.datasheet_id)).count d) d)

/-- Counterexample database for C2 as stated: four copies of a datasheet
identifier that the catalog does not know. -/
def dbC2cex : DB :=
  { army_lists :=
      [⟨"L", "SM", 2000, 0,
        [⟨"GHOST", false⟩, ⟨"GHOST", false⟩, ⟨"GHOST", false⟩, ⟨"GHOST", false⟩]⟩]
    datasheets := []
    keywords := []
    model_costs := []
    model_stats := []
    wargear := [] }

/-- Counterexample to C2 as stated: a non-battleline datasheet identifier
present four times, yet no `EXCEEDS_DATASHEET_LIMIT` error is emitted,
because the identifier is not found in the catalog. -/
theorem datasheet_limit_errors_counterexample :
    ((dbC2cex.army_lists.find? (fun a => a.list_id == "L")).map
        (fun al => (al.units.map (fun u => u.datasheet_id)).count "GHOST")) = some 4 ∧
    isBattlelineB dbC2cex "GHOST" = false ∧
    countCode (validate_list dbC2cex "L") "EXCEEDS_DATASHEET_LIMIT" = 0 := by
  decide

/-- Concrete database for the C2 witness: a catalogued non-battleline
datasheet present 3 and 4 times, and a catalogued battleline datasheet
present 6 and 7 times, across four lists. -/
def dbC2w : DB :=
  { army_lists :=
      [⟨"N3", "SM", 10000, 0, List.replicate 3 ⟨"NB", false⟩⟩,
       ⟨"N4", "SM", 10000, 0, List.replicate 4 ⟨"NB", false⟩⟩,
       ⟨"B6", "SM", 10000, 0, List.replicate 6 ⟨"BL", false⟩⟩,
       ⟨"B7", "SM", 10000, 0, List.replicate 7 ⟨"BL", false⟩⟩]
    datasheets := [⟨"NB", "Terminator Squad", "SM"⟩, ⟨"BL", "Intercessor Squad", "SM"⟩]
    keywords := [⟨"BL", "BATTLELINE"⟩]
    model_costs := []
    model_stats := []
    wargear := [] }

/-- Witness for C2 at the four repetition boundary inputs. -/
theorem datasheet_limit_errors_witness :
    countCode (validate_list dbC2w "N3") "EXCEEDS_DATASHEET_LIMIT" = 0 ∧
    countCode (validate_list dbC2w "N4") "EXCEEDS_DATASHEET_LIMIT" = 1 ∧
    countCode (validate_list dbC2w "B6") "EXCEEDS_DATASHEET_LIMIT" = 0 ∧
    countCode (validate_list dbC2w "B7") "EXCEEDS_DATASHEET_LIMIT" = 1 := by
  refine ⟨?_, ?_, ?_, ?_⟩
  · rw [datasheet_limit_errors dbC2w "N3"
      ⟨"N3", "SM", 10000, 0, List.replicate 3 ⟨"NB", false⟩⟩ (by decide)]
    decide
  · rw [datasheet_limit_errors dbC2w "N4"
      ⟨"N4", "SM", 10000, 0, List.replicate 4 ⟨"NB", false⟩⟩ (by decide)]
    decide
  · rw [datasheet_limit_errors dbC2w "B6"
      ⟨"B6", "SM", 10000, 0, List.replicate 6 ⟨"BL", false⟩⟩ (by decide)]
    decide
  · rw [datasheet_limit_errors dbC2w "B7"
      ⟨"B7", "SM", 10000, 0, List.replicate 7 ⟨"BL", false⟩⟩ (by decide)]
    decide

/-! ## C3 — warlord check -/

/-- The character-possibility test of a single unit, as a proposition. -/
theorem unit_has_character_iff (db : DB) (u : UnitEntry) :
    unit_has_character db u = true ↔
      ∃ ds, findDatasheet db u.datasheet_id = some ds ∧
        ∃ k ∈ keywordRows db ds.datasheet_id, k.keyword = "CHARACTER" := by
  unfold unit_has_character
  cases hfd : findDatasheet db u.datasheet_id with
  | none => simp
  | some ds => simp [List.any_eq_true]

/-- The warlord check emits one error exactly when its three boolean
conditions hold. -/
theorem countIssues_check_warlord (db : DB) (al : ArmyList) :
    countIssues (check_warlord db al) "NO_WARLORD" =
      if (!al.units.any (fun u => u.is_warlord) && !al.units.isEmpty) &&
          al.units.any (unit_has_character db) then 1 else 0 := by
  unfold check_warlord
  by_cases h1 : (!al.units.any fun u => u.is_warlord) && !al.units.isEmpty
  · by_cases h2 : al.units.any (unit_has_character db)
    · simp [h1, h2, countIssues]
    · simp [h1, h2, countIssues]
  · simp [h1, countIssues]

/-- The boolean guard of the warlord check, in propositional form. -/
theorem warlord_cond_iff (db : DB) (al : ArmyList) :
    ((!al.units.any (fun u => u.is_warlord) && !al.units.isEmpty) &&
        al.units.any (unit_has_character db)) = true ↔
      (al.units ≠ [] ∧ (∀ u ∈ al.units, u.is_warlord = false) ∧
       ∃ u ∈ al.units, ∃ ds, findDatasheet db u.datasheet_id = some ds ∧
         ∃ k ∈ keywordRows db ds.datasheet_id, k.keyword = "CHARACTER") := by
  simp only [Bool.and_eq_true, Bool.not_eq_true', List.any_eq_false, List.any_eq_true,
    List.isEmpty_eq_false, Bool.not_eq_true, unit_has_character_iff]
  tauto

/-- C3: for every army list found by `validate_list`, a `NO_WARLORD`
error is emitted (exactly once) iff the list has at least one unit, no
unit is flagged as warlord, and some unit's datasheet resolves and
carries the `CHARACTER` keyword. -/
theorem no_warlord_error_iff (db : DB) (list_id : String) (al : ArmyList)
    (h : db.army_lists.find? (fun a => a.list_id == list_id) = some al) :
    countCode (validate_list db list_id) "NO_WARLORD" ≤ 1 ∧
    (countCode (validate_list db list_id) "NO_WARLORD" = 1 ↔
      (al.units ≠ [] ∧ (∀ u ∈ al.units, u.is_warlord = false) ∧
       ∃ u ∈ al.units, ∃ ds, findDatasheet db u.datasheet_id = some ds ∧
         ∃ k ∈ keywordRows db ds.datasheet_id, k.keyword = "CHARACTER")) := by
  have hp : countIssues (check_point_limit al) "NO_WARLORD" = 0 :=
    countIssues_eq_zero _ _ (fun e he => by rw [check_point_limit_codes al e he]; decide)
  have hd : countIssues (check_datasheet_limits db al) "NO_WARLORD" = 0 :=
    countIssues_eq_zero _ _
      (fun e he => by rw [check_datasheet_limits_codes db al e he]; decide)
  have hf : countIssues (check_faction_consistency db al) "NO_WARLORD" = 0 :=
    countIssues_eq_zero _ _
      (fun e he => by rw [check_faction_consistency_codes db al e he]; decide)
  have key : countCode (validate_list db list_id) "NO_WARLORD" =
      if (!al.units.any (fun u => u.is_warlord) && !al.units.isEmpty) &&
          al.units.any (unit_has_character db) then 1 else 0 := by
    rw [countCode_validate_list db list_id al _ h, hp, hd, hf, countIssues_check_warlord]
    simp
  constructor
  · rw [key]; split <;> simp
  · rw [key, ← warlord_cond_iff db al]
    split <;> simp_all

/-- Concrete database for the C3 witness: one unflagged unit whose
datasheet carries `CHARACTER`. -/
def dbC3w : DB :=
  { army_lists := [⟨"L", "XX", 2000, 0, [⟨"CAP", false⟩]⟩]
    datasheets := [⟨"CAP", "Captain", "XX"⟩]
    keywords := [⟨"CAP", "CHARACTER"⟩]
    model_costs := []
    model_stats := []
    wargear := [] }

/-- Witness for C3: the concrete list above receives exactly one
`NO_WARLORD` error. -/
theorem no_warlord_error_iff_witness :
    countCode (validate_list dbC3w "L") "NO_WARLORD" = 1 :=
  (no_warlord_error_iff dbC3w "L" ⟨"L", "XX", 2000, 0, [⟨"CAP", false⟩]⟩ (by decide)).2.mpr
    ⟨by decide, by decide,
     ⟨"CAP", false⟩, by decide,
     ⟨"CAP", "Captain", "XX"⟩, by decide,
     ⟨"CAP", "CHARACTER"⟩, by decide, rfl⟩

/-! ## C7 — faction alliance -/

/-- Concrete database for C7: a declared `SM` list containing an `AM`
unit, and another containing a `CSM` unit. -/
def dbC7 : DB :=
  { army_lists :=
      [⟨"SM_with_AM", "SM", 2000, 0, [⟨"AMDS", false⟩]⟩,
       ⟨"SM_with_CSM", "SM", 2000, 0, [⟨"CSMDS", false⟩]⟩]
    datasheets := [⟨"AMDS", "Leman Russ", "AM"⟩, ⟨"CSMDS", "Legionaries", "CSM"⟩]
    keywords := []
    model_costs := []
    model_stats := []
    wargear := [] }

/-- C7: the guard under which a unit raises no `FACTION_MISMATCH` —
identical factions, or `_are_factions_allied` — holds iff the two
factions are identical, both Imperial-aligned, or both Chaos-aligned;
consequently an `AM` unit in an `SM` list yields no `FACTION_MISMATCH`
while a `CSM` unit in an `SM` list yields exactly one. -/
theorem alliance_compatibility :
    (∀ faction1 faction2 : String,
      ((faction1 == faction2) || are_factions_allied faction1 faction2) = true ↔
        (faction1 = faction2 ∨
         (faction1 ∈ imperial_factions ∧ faction2 ∈ imperial_factions) ∨
         (faction1 ∈ chaos_factions ∧ faction2 ∈ chaos_factions))) ∧
    countCode (validate_list dbC7 "SM_with_AM") "FACTION_MISMATCH" = 0 ∧
    countCode (validate_list dbC7 "SM_with_CSM") "FACTION_MISMATCH" = 1 := by
  refine ⟨?_, by decide, by decide⟩
  intro faction1 faction2
  simp [are_factions_allied, List.contains, List.elem_iff]

/-! ## C5 — model count -/

/-- The contribution of a single model line to the accumulated count. -/
def modelLineDelta (m : String) : Int :=
  match searchCountPattern m.data with
  | some n => (n : Int) - 1
  | none => 0

/-- The accumulation loop of `_parse_model_count` sums the per-line
deltas. -/
theorem parse_model_count_foldl (l : List String) (a : Int) :
    (l.foldl
      (fun acc m =>
        match searchCountPattern m.data with
        | some n => acc + ((n : Int) - 1)
        | none => acc)
      a) = a + (l.map modelLineDelta).sum := by
  induction l generalizing a with
  | nil => simp
  | cons x xs ih =>
    rw [List.foldl_cons, List.map_cons, List.sum_cons]
    cases hx : searchCountPattern x.data with
    | none => simp [ih, modelLineDelta, hx]
    | some n =>
      simp only [ih, modelLineDelta, hx]
      ring

/-- C5 (amended): the expanded model count is 1 plus the sum over all
model-count lines of `n - 1`, where `n` is the first occurrence anywhere
in the line of `"<n>x<whitespace>"` (not only a leading occurrence); when
that accumulated total equals 1 (in particular, when no line parses to a
number) and there is at least one model-count line, the count is instead
the number of model-count lines; the result is floored at 1.  The claim's
own example `["4x A", "2x B"]` yields 5. -/
theorem parse_model_count_characterization :
    parse_model_count ["4x A", "2x B"] = 5 ∧
    ∀ (unit_models : List String),
      parse_model_count unit_models =
        max 1
          (if 1 + (unit_models.map modelLineDelta).sum = 1 ∧ unit_models ≠ []
           then (unit_models.length : Int)
           else 1 + (unit_models.map modelLineDelta).sum) := by
  refine ⟨by decide, ?_⟩
  intro l
  unfold parse_model_count
  rw [parse_model_count_foldl]
  by_cases hc : 1 + (l.map modelLineDelta).sum = 1 ∧ l ≠ []
  · obtain ⟨h1, h2⟩ := hc
    rw [if_pos ⟨h1, h2⟩]
    simp [h1, List.isEmpty_eq_false.mpr h2]
  · rw [if_neg hc]
    rcases Decidable.not_and_iff_or_not.mp hc with h1 | h2
    · simp [h1]
    · have he : l = [] := not_not.mp h2
      subst he
      simp

/-- Counterexample to C5 as stated: on `["1x A", "1x B"]` every line
parses to the number 1, so the claimed count is 1, but the code's
line-count fallback fires (its guard is `total == 1`, not "no line
parsed") and returns 2; and on `["a 4x b"]` no line matches a leading
pattern, so the claimed count is 1, but the code searches the pattern
anywhere in the line and returns 4. -/
theorem parse_model_count_counterexample :
    modelCountPerClaim ["1x A", "1x B"] = 1 ∧
    parse_model_count ["1x A", "1x B"] = 2 ∧
    modelCountPerClaim ["a 4x b"] = 1 ∧
    parse_model_count ["a 4x b"] = 4 := by
  decide

/-! ## C6 — unit base cost -/

/-- The cost-search loop equals a `find?` over the options, with 0 as the
not-found sentinel. -/
theorem matchLoopCost_eq_find (needle : String) (l : List ModelCostRow) :
    matchLoopCost needle l =
      match l.find? (fun e => pyContains (pyLower e.description) needle) with
      | some e => e.cost
      | none => 0 := by
  induction l with
  | nil => rfl
  | cons o rest ih =>
    unfold matchLoopCost
    rw [List.find?_cons]
    by_cases hp : pyContains (pyLower o.description) needle
    · simp [hp]
    · simp [hp, ih]

/-- C6 (amended): the calculated unit base cost is the cost of the first
cost-table entry, in ascending line order, whose description
case-insensitively contains `"<modelCount> model"`; however, when that
entry's cost is 0 — or when no entry matches — the cost of the entry with
the lowest line number is used instead; with no cost-table entries the
cost is 0. -/
theorem calculate_unit_cost_characterization (db : DB) (dsid : String) (n : Int) :
    calculate_unit_cost db dsid n =
      match get_unit_cost_options db dsid with
      | [] => 0
      | o :: rest =>
        match (o :: rest).find?
            (fun e => pyContains (pyLower e.description) (toString n ++ " model")) with
        | some e => if e.cost = 0 then o.cost else e.cost
        | none => o.cost := by
  unfold calculate_unit_cost
  cases h : get_unit_cost_options db dsid with
  | nil => rfl
  | cons o rest =>
    simp only [matchLoopCost_eq_find]
    cases hf : (o :: rest).find?
        (fun e => pyContains (pyLower e.description) (toString n ++ " model")) with
    | none => simp [hf]
    | some e =>
      by_cases he : e.cost = 0 <;> simp [hf, he]

/-- Counterexample database for C6: a matching entry with cost 0 behind a
non-matching first entry, and a match that only succeeds
case-insensitively. -/
def dbC6cex : DB :=
  { army_lists := []
    datasheets := []
    keywords := []
    model_costs :=
      [⟨"DS1", 1, "5 models", 50⟩, ⟨"DS1", 2, "1 model", 0⟩,
       ⟨"DS2", 1, "other size", 70⟩, ⟨"DS2", 2, "1 Model", 40⟩]
    model_stats := []
    wargear := [] }

/-- Counterexample to C6 as stated: for `DS1` at one model the first
matching entry has cost 0, which the claim says is returned, but the code
treats 0 as "no match" and falls back to the first entry's 50; for `DS2`
at one model no description textually contains `"1 model"`, so the claim
gives the first entry's 70, but the code matches `"1 Model"`
case-insensitively and returns 40. -/
theorem calculate_unit_cost_counterexample :
    unitCostPerClaim dbC6cex "DS1" 1 = 0 ∧
    calculate_unit_cost dbC6cex "DS1" 1 = 50 ∧
    unitCostPerClaim dbC6cex "DS2" 1 = 70 ∧
    calculate_unit_cost dbC6cex "DS2" 1 = 40 := by
  decide

/-! ## C8 — detachment name -/

/-- A line matches the detachment scan when its lower-cased form contains
one of the markers. -/
def matches_detachment (line : String) : Bool :=
  detachment_markers.any (fun k => pyContains (pyLower line) k)

/-- The detachment component of the header fold keeps the trimmed form of
the last matching line. -/
theorem foldl_faction_info_step_snd (l : List String) (pd : Int × String) :
    (l.foldl faction_info_step pd).2 =
      (((l.filter matches_detachment).map pyStrip).getLast?).getD pd.2 := by
  induction l generalizing pd with
  | nil => rfl
  | cons x xs ih =>
    rw [List.foldl_cons, ih, List.filter_cons]
    have hsnd : (faction_info_step pd x).2 =
        if detachment_markers.any (fun k => pyContains (pyLower x) k) then pyStrip x
        else pd.2 := rfl
    by_cases hx : matches_detachment x
    · rw [if_pos hx, List.map_cons, List.getLast?_cons, hsnd]
      unfold matches_detachment at hx
      rw [if_pos hx]
      simp
    · rw [if_neg hx, hsnd]
      unfold matches_detachment at hx
      rw [if_neg hx]

/-- C8 (amended): the detachment name is the trimmed form of the last —
not the first — line among the first 5 lines whose lower-cased form
contains a detachment marker, and the empty string when none matches. -/
theorem detachment_name_characterization (army_text : String) :
    (extract_faction_info (parse_army_list_lines army_text)).detachment =
      (((((parse_army_list_lines army_text).take 5).filter matches_detachment).map
          pyStrip).getLast?).getD "" := by
  unfold extract_faction_info
  exact foldl_faction_info_step_snd ((parse_army_list_lines army_text).take 5) (0, "")

/-- Counterexample to C8 as stated: with two matching lines among the
first 5, the first matching line is `"Patrol Alpha"`, but the parser
returns `"Patrol Beta"`, the last one. -/
theorem detachment_name_counterexample :
    ((parse_army_list_lines "A\nPatrol Alpha\nPatrol Beta").take 5).find?
        matches_detachment = some "Patrol Alpha" ∧
    (extract_faction_info (parse_army_list_lines "A\nPatrol Alpha\nPatrol Beta")).detachment =
      "Patrol Beta" := by
  decide

/-! ## C9 — faction name -/

/-- The first piece of the newline split is the run of characters before
the first newline. -/
theorem splitNlChars_head (l : List Char) :
    (splitNlChars l).head? = some (l.takeWhile (fun c => c != '\n')) := by
  induction l with
  | nil => rfl
  | cons c rest ih =>
    simp only [splitNlChars]
    by_cases hc : c == '\n'
    · have : c = '\n' := by simpa using hc
      subst this
      simp [List.takeWhile_cons]
    · cases hr : splitNlChars rest with
      | nil => rw [hr] at ih; simp at ih
      | cons h t =>
        rw [hr] at ih
        simp only [List.head?_cons, Option.some.injEq] at ih
        subst ih
        have hcc : (c != '\n') = true := by simpa using hc
        simp [hc, List.takeWhile_cons, hcc]

/-- The newline split never yields an empty list of pieces. -/
theorem pySplitLines_ne_nil (s : String) : pySplitLines s ≠ [] := by
  intro h
  have := splitNlChars_head s.data
  unfold pySplitLines at h
  rcases he : splitNlChars s.data with _ | ⟨x, t⟩
  · rw [he] at this; simp at this
  · rw [he] at h; simp at h

/-- The first line produced by `parse_army_list` is the prefix of the
stripped text before its first newline. -/
theorem pySplitLines_head (s : String) :
    (pySplitLines s).head? = some (String.mk (s.data.takeWhile (fun c => c != '\n'))) := by
  unfold pySplitLines
  rcases he : splitNlChars s.data with _ | ⟨x, t⟩
  · have := splitNlChars_head s.data
    rw [he] at this; simp at this
  · have := splitNlChars_head s.data
    rw [he] at this
    simp only [List.head?_cons, Option.some.injEq] at this
    subst this
    simp

/-- C9 (amended): the parsed faction name is the trimmed first line of
the stripped input text; since splitting always yields at least one
piece, the `"Unknown"` default is unreachable, and empty or
whitespace-only input yields the empty string rather than `"Unknown"`. -/
theorem faction_name_characterization :
    (∀ army_text : String,
      (extract_faction_info (parse_army_list_lines army_text)).name =
        pyStrip (String.mk ((pyStrip army_text).data.takeWhile (fun c => c != '\n')))) ∧
    (∀ army_text : String, trimChars army_text.data = [] →
      (extract_faction_info (parse_army_list_lines army_text)).name = "") := by
  have hname : ∀ army_text : String,
      (extract_faction_info (parse_army_list_lines army_text)).name =
        pyStrip (String.mk ((pyStrip army_text).data.takeWhile (fun c => c != '\n'))) := by
    intro s
    have hne := pySplitLines_ne_nil (pyStrip s)
    have hhead := pySplitLines_head (pyStrip s)
    unfold parse_army_list_lines
    cases hl : pySplitLines (pyStrip s) with
    | nil => exact absurd hl hne
    | cons x t =>
      rw [hl] at hhead
      simp only [List.head?_cons, Option.some.injEq] at hhead
      subst hhead
      rfl
  refine ⟨hname, ?_⟩
  intro s hs
  rw [hname s]
  unfold pyStrip
  rw [hs]
  rfl

/-- Counterexample to C9 as stated: empty and whitespace-only input yield
the empty faction name, not `"Unknown"`. -/
theorem faction_name_counterexample :
    (extract_faction_info (parse_army_list_lines "")).name = "" ∧
    (extract_faction_info (parse_army_list_lines "  \n ")).name = "" ∧
    "" ≠ "Unknown" := by
  decide

/-- Witness for C9 at a concrete whitespace-only input. -/
theorem faction_name_characterization_witness :
    trimChars "   ".data = [] ∧
    (extract_faction_info (parse_army_list_lines "   ")).name = "" :=
  ⟨by decide, faction_name_characterization.2 "   " (by decide)⟩
